import Mathlib

/-!
Verification development for the sharktopoda-client library: a shallow
embedding of the UDP transport, the duration codec, the client state
mirror with its optimistic localization working set, and the domain
record codecs, together with theorems settling the frozen claims.

Conventions of the embedding:
* Python dicts are association lists with Python dict semantics
  (insertion order kept, unique keys, `update` merges key by key).
* A UUID value on the wire is represented by the constructor
  `Json.uuid`, standing for the canonical string form produced by
  Python `str(uuid)`; this collapses the bijection between UUID values
  and their canonical strings (`UUID(str(u)) == u`).
* A `pathlib.Path` is represented by its canonical `str()` form
  (in Python, `Path(str(p)) == p`).
* Python floats are represented by `Rat`; the code never computes on
  them, it only stores and retrieves them.
* Fallible Python code (exceptions) is modelled with `Except PyError`
  or `Option`.
-/

namespace Shark

/-- Python exceptions that the modelled code can raise. -/
inductive PyError where
  | attributeError
  | typeError
  | keyError (key : String)
  | valueError
  | timeoutError
deriving DecidableEq, Repr

/-- A UUID, identified by its 128-bit value. Its canonical string form
(`str(u)` in Python) is injective, so the embedding keeps only the value. -/
structure UUID where
  val : Nat
deriving DecidableEq, Repr

/-- JSON values as they appear in wire envelopes. `uuid u` stands for the
canonical UUID string `str(u)`. -/
inductive Json where
  | str (s : String)
  | int (n : Int)
  | float (q : Rat)
  | bool (b : Bool)
  | uuid (u : UUID)
  | arr (elems : List Json)
  | obj (fields : List (String × Json))

/-- A wire envelope or encoded record: a Python dict keyed by strings. -/
abbrev Envelope := List (String × Json)

/-- Python `d[k]` lookup (first matching key; dicts keep keys unique). -/
def dictGet? {K V : Type} [DecidableEq K] : List (K × V) → K → Option V
  | [], _ => none
  | (k', v) :: rest, k => if k' = k then some v else dictGet? rest k

/-- Python `d[k] = v`: replace in place if the key exists, else append. -/
def dictSet {K V : Type} [DecidableEq K] : List (K × V) → K → V → List (K × V)
  | [], k, v => [(k, v)]
  | (k', v') :: rest, k, v =>
    if k' = k then (k, v) :: rest else (k', v') :: dictSet rest k v

/-- Python `d.pop(k, None)`: drop the entry for `k` if present. -/
def dictPop {K V : Type} [DecidableEq K] : List (K × V) → K → List (K × V)
  | [], _ => []
  | (k', v') :: rest, k =>
    if k' = k then rest else (k', v') :: dictPop rest k

/-- Python `d.update(other)`: fold every entry of `other` into `d`. -/
def dictUpdate {K V : Type} [DecidableEq K]
    (d other : List (K × V)) : List (K × V) :=
  other.foldl (fun acc kv => dictSet acc kv.1 kv.2) d

/-- The keys of a dict, in order. -/
def dictKeys {K V : Type} (d : List (K × V)) : List K := d.map Prod.fst

/-- The unique-keys invariant every Python dict maintains. -/
def DictNoDup {K V : Type} (d : List (K × V)) : Prop := (dictKeys d).Nodup

instance {K V : Type} [DecidableEq K] (d : List (K × V)) :
    Decidable (DictNoDup d) := by
  unfold DictNoDup
  infer_instance

theorem dictGet?_eq_none_iff {K V : Type} [DecidableEq K]
    (d : List (K × V)) (k : K) :
    dictGet? d k = none ↔ k ∉ dictKeys d := by
  induction d with
  | nil => simp [dictGet?, dictKeys]
  | cons p rest ih =>
    obtain ⟨k', v⟩ := p
    by_cases h : k' = k
    · subst h
      simp [dictGet?, dictKeys]
    · simp [dictGet?, dictKeys, h, ih, Ne.symm h]

theorem dictGet?_set_self {K V : Type} [DecidableEq K]
    (d : List (K × V)) (k : K) (v : V) :
    dictGet? (dictSet d k v) k = some v := by
  induction d with
  | nil => simp [dictSet, dictGet?]
  | cons p rest ih =>
    obtain ⟨k', v'⟩ := p
    by_cases h : k' = k
    · simp [dictSet, dictGet?, h]
    · simp [dictSet, dictGet?, h, ih]

theorem dictGet?_set_ne {K V : Type} [DecidableEq K]
    (d : List (K × V)) (k' k : K) (v : V) (h : k' ≠ k) :
    dictGet? (dictSet d k' v) k = dictGet? d k := by
  induction d with
  | nil => simp [dictSet, dictGet?, h]
  | cons p rest ih =>
    obtain ⟨k'', v''⟩ := p
    by_cases h2 : k'' = k'
    · subst h2
      simp [dictSet, dictGet?, h]
    · simp [dictSet, dictGet?, h2, ih]

/-- The first option when it holds a value, the second otherwise. -/
def optionFirst {V : Type} (a b : Option V) : Option V :=
  match a with
  | some v => some v
  | none => b

/-- Looking up after `update` takes the value of the second dict when its
key set contains the key, and the first dict otherwise. -/
theorem dictGet?_dictUpdate {K V : Type} [DecidableEq K]
    (other : List (K × V)) (d : List (K × V)) (hnd : DictNoDup other) (k : K) :
    dictGet? (dictUpdate d other) k =
      optionFirst (dictGet? other k) (dictGet? d k) := by
  induction other generalizing d with
  | nil => simp [dictUpdate, dictGet?, optionFirst]
  | cons p rest ih =>
    obtain ⟨k', v'⟩ := p
    have hnd' : DictNoDup rest := by
      simpa [DictNoDup, dictKeys] using (List.Nodup.of_cons hnd)
    have hk' : k' ∉ dictKeys rest := by
      have h1 : (k' :: dictKeys rest).Nodup := hnd
      exact (List.nodup_cons.mp h1).1
    have hstep : dictUpdate d ((k', v') :: rest) =
        dictUpdate (dictSet d k' v') rest := by
      simp [dictUpdate]
    rw [hstep, ih _ hnd']
    by_cases h : k' = k
    · subst h
      have hrest : dictGet? rest k' = none :=
        (dictGet?_eq_none_iff rest k').mpr hk'
      simp [dictGet?, hrest, dictGet?_set_self, optionFirst]
    · simp [dictGet?, h, dictGet?_set_ne d k' k v' h]

/-! ### JavaTypes.py and gson/DurationConverter.py -/

/-- Python `datetime.timedelta`, kept as its total length in microseconds.
`timedelta` normalizes to days, seconds and a microseconds component with
`0 <= seconds < 86400` and `0 <= microseconds < 1000000`; the attribute
`microseconds` is therefore the floor-remainder of the total by one
million. -/
structure Duration where
  totalMicroseconds : Int
deriving DecidableEq, Repr

/-- The `timedelta.microseconds` attribute: the sub-second microsecond
component after normalization (Python floor semantics). -/
def Duration.microseconds (d : Duration) : Int :=
  Int.fmod d.totalMicroseconds 1000000

/-- `Duration.ofMillis(millis)` is `Duration(milliseconds=millis)`. -/
def Duration.ofMillis (millis : Int) : Duration :=
  ⟨millis * 1000⟩

/-- `Duration.toMillis`: the source computes `self.microseconds // 1000`,
on the microseconds component, with Python floor division. -/
def Duration.toMillis (d : Duration) : Int :=
  Int.fdiv d.microseconds 1000

/-- `DurationConverter.serialize`: `str(duration.toMillis())`. -/
def DurationConverter.serialize (duration : Duration) : String :=
  toString duration.toMillis

/-- The value of a decimal digit character, `None` otherwise. -/
def digitVal? (c : Char) : Option Nat :=
  if c.isDigit then some (c.toNat - 48) else none

/-- Accumulate decimal digits; an empty or non-digit sequence gives
`none`. -/
def parseNat? (cs : List Char) : Option Nat :=
  cs.foldl
    (fun acc c =>
      match acc, digitVal? c with
      | some n, some d => some (n * 10 + d)
      | _, _ => none)
    (match cs with
     | [] => none
     | _ => some 0)

/-- Python `int(s)` on a plain decimal string with an optional leading
minus sign; any other string raises `ValueError` (`none` here). -/
def pyInt? (s : String) : Option Int :=
  match s.data with
  | [] => none
  | c :: rest =>
    if c = Char.ofNat 45 then (parseNat? rest).map (fun n => -(n : Int))
    else (parseNat? s.data).map (fun n => (n : Int))

/-- `DurationConverter.deserialize`: `Duration.ofMillis(int(json_str))`;
`int(...)` raises `ValueError` on a non-integer string, modelled by
`Option`. -/
def DurationConverter.deserialize (json_str : String) : Option Duration :=
  (pyInt? json_str).map Duration.ofMillis

/-! ### udp.py -/

/-- One iteration worth of input to a receive loop: either a datagram
whose payload decodes as JSON, or one whose decoding raises
(`datagram.decode` or `json.loads` failure). `host` is the sender address
reported by `recvfrom`. -/
inductive DatagramEvent where
  | wellFormed (host : String) (msg : Envelope)
  | malformed (host : String)

/-- The receive loop of `RxUDPServer` in udp.py, as the list of decoded
envelopes pushed to the receive subject for a given inbound sequence.
The loop runs `while self._ok`; the `except` arm logs and sets
`self._ok = False`, so the loop exits and nothing later is delivered. -/
def udpReceiveDelivered : List DatagramEvent → List Envelope
  | [] => []
  | DatagramEvent.wellFormed _ msg :: rest => msg :: udpReceiveDelivered rest
  | DatagramEvent.malformed _ :: _ => []

/-- The receive loop of the `RxUDPServer` copy in client.py: identical,
except datagrams from a host other than `send_host` are skipped before
decoding (`continue`), so only a matching-host decode failure stops the
loop. -/
def clientReceiveDelivered (send_host : String) : List DatagramEvent → List Envelope
  | [] => []
  | DatagramEvent.wellFormed h msg :: rest =>
    if h = send_host then msg :: clientReceiveDelivered send_host rest
    else clientReceiveDelivered send_host rest
  | DatagramEvent.malformed h :: rest =>
    if h = send_host then [] else clientReceiveDelivered send_host rest

/-- What the socket does during one blocking `recvfrom` with a timeout
set: a well-formed datagram arrives in time, or the wait times out and
`socket.recvfrom` raises `socket.timeout`. -/
inductive SocketRecv where
  | arrived (msg : Envelope)
  | timedOut

/-- `UDPServer.receive(timeout)` from udp.py. The source guards the
`recvfrom` with `except timeout:` where `timeout` is the integer
parameter, which shadows any exception class; when `socket.timeout` is
raised, matching it against a non-exception value makes Python raise
`TypeError`, so the intended `raise TimeoutError(...)` is unreachable. -/
def UDPServer.receive (timeout : Nat) (outcome : SocketRecv) :
    Except PyError Envelope :=
  match timeout, outcome with
  | _, SocketRecv.arrived msg => Except.ok msg
  | _, SocketRecv.timedOut => Except.error PyError.typeError

/-! ### client.py: enumerations and domain records -/

inductive VideoOpenState where
  | CLOSED
  | OPENING
  | OPEN
deriving DecidableEq, Repr

inductive PlayStatus where
  | PLAYING
  | SHUTTLING_FORWARD
  | SHUTTLING_REVERSE
  | PAUSED
deriving DecidableEq, Repr

/-- The wire string of each `PlayStatus` member (`status.value`). -/
def PlayStatus.value : PlayStatus → String
  | PlayStatus.PLAYING => "playing"
  | PlayStatus.SHUTTLING_FORWARD => "shuttling forward"
  | PlayStatus.SHUTTLING_REVERSE => "shuttling reverse"
  | PlayStatus.PAUSED => "paused"

/-- The `PlayStatus(s)` enum constructor; raises `ValueError` on an
unknown string, modelled by `Option`. -/
def PlayStatus.ofValue? : String → Option PlayStatus
  | "playing" => some PlayStatus.PLAYING
  | "shuttling forward" => some PlayStatus.SHUTTLING_FORWARD
  | "shuttling reverse" => some PlayStatus.SHUTTLING_REVERSE
  | "paused" => some PlayStatus.PAUSED
  | _ => none

structure VideoPlayerState where
  status : PlayStatus
  rate : Rat
deriving DecidableEq, Repr

/-- `VideoPlayerState.encode`. -/
def VideoPlayerState.encode (s : VideoPlayerState) : Envelope :=
  [("status", Json.str s.status.value), ("rate", Json.float s.rate)]

/-- `VideoPlayerState.decode`: reads `status` (through the `PlayStatus`
constructor) and `rate`; a missing key raises `KeyError` and a bad status
string raises `ValueError`, both collapsed into `none`. -/
def VideoPlayerState.decode (video_player_state : Envelope) :
    Option VideoPlayerState :=
  match dictGet? video_player_state "status",
        dictGet? video_player_state "rate" with
  | some (Json.str sv), some (Json.float r) =>
    match PlayStatus.ofValue? sv with
    | some st => some { status := st, rate := r }
    | none => none
  | _, _ => none

structure VideoInfo where
  uuid : UUID
  url : String
  duration_millis : Int
  frame_rate : Rat
  is_key : Bool
deriving DecidableEq, Repr

/-- `VideoInfo.encode`. -/
def VideoInfo.encode (v : VideoInfo) : Envelope :=
  [("uuid", Json.uuid v.uuid),
   ("url", Json.str v.url),
   ("durationMillis", Json.int v.duration_millis),
   ("frameRate", Json.float v.frame_rate),
   ("isKey", Json.bool v.is_key)]

/-- `VideoInfo.decode`. -/
def VideoInfo.decode (video_info : Envelope) : Option VideoInfo :=
  match dictGet? video_info "uuid", dictGet? video_info "url",
        dictGet? video_info "durationMillis", dictGet? video_info "frameRate",
        dictGet? video_info "isKey" with
  | some (Json.uuid u), some (Json.str url), some (Json.int dm),
      some (Json.float fr), some (Json.bool ik) =>
    some { uuid := u, url := url, duration_millis := dm,
           frame_rate := fr, is_key := ik }
  | _, _, _, _, _ => none

structure FrameCapture where
  uuid : UUID
  elapsed_time_millis : Int
  image_reference_uuid : UUID
  image_location : String
deriving DecidableEq, Repr

/-- `FrameCapture.encode`; `image_location` holds the canonical `str()`
form of the `pathlib.Path`. -/
def FrameCapture.encode (f : FrameCapture) : Envelope :=
  [("uuid", Json.uuid f.uuid),
   ("elapsedTimeMillis", Json.int f.elapsed_time_millis),
   ("imageReferenceUuid", Json.uuid f.image_reference_uuid),
   ("imageLocation", Json.str f.image_location)]

/-- `FrameCapture.decode`; `Path(string)` on a canonical path string
reproduces the path. -/
def FrameCapture.decode (frame_capture : Envelope) : Option FrameCapture :=
  match dictGet? frame_capture "uuid",
        dictGet? frame_capture "elapsedTimeMillis",
        dictGet? frame_capture "imageReferenceUuid",
        dictGet? frame_capture "imageLocation" with
  | some (Json.uuid u), some (Json.int etm), some (Json.uuid iru),
      some (Json.str loc) =>
    some { uuid := u, elapsed_time_millis := etm,
           image_reference_uuid := iru, image_location := loc }
  | _, _, _, _ => none

structure Localization where
  uuid : UUID
  concept : String
  elapsed_time_millis : Int
  x : Int
  y : Int
  width : Int
  height : Int
  duration_millis : Int := 0
  color : Option String := none
deriving DecidableEq, Repr

/-- `Localization.encode`: the `color` key is added only when the field
is not `None`. -/
def Localization.encode (l : Localization) : Envelope :=
  let data : Envelope :=
    [("uuid", Json.uuid l.uuid),
     ("concept", Json.str l.concept),
     ("elapsedTimeMillis", Json.int l.elapsed_time_millis),
     ("durationMillis", Json.int l.duration_millis),
     ("x", Json.int l.x),
     ("y", Json.int l.y),
     ("width", Json.int l.width),
     ("height", Json.int l.height)]
  match l.color with
  | some c => data ++ [("color", Json.str c)]
  | none => data

/-- `Localization.decode`: required keys raise `KeyError` when absent
(collapsed into `none`); `color` is read only if present
(`localization["color"] if "color" in localization else None`). -/
def Localization.decode (localization : Envelope) : Option Localization :=
  match dictGet? localization "uuid", dictGet? localization "concept",
        dictGet? localization "elapsedTimeMillis",
        dictGet? localization "durationMillis",
        dictGet? localization "x", dictGet? localization "y",
        dictGet? localization "width", dictGet? localization "height" with
  | some (Json.uuid u), some (Json.str con), some (Json.int etm),
      some (Json.int dm), some (Json.int x), some (Json.int y),
      some (Json.int w), some (Json.int h) =>
    some { uuid := u, concept := con, elapsed_time_millis := etm,
           duration_millis := dm, x := x, y := y, width := w, height := h,
           color :=
             match dictGet? localization "color" with
             | some (Json.str c) => some c
             | _ => none }
  | _, _, _, _, _, _, _, _ => none

/-! ### client.py: SharktopodaClient state and methods -/

/-- The mutable fields a `SharktopodaClient` instance holds after
`__init__`. `localizations` is the committed working set and
`uncommitted_localizations` the speculative one, both keyed by the
localization UUID. The attribute `_opened_video_state` written by
`open` is NOT among them: `__init__` only defines `_video_open_state`. -/
structure ClientState where
  connected : Bool
  video_open_state : List (UUID × VideoOpenState)
  focused_video_info : Option VideoInfo
  all_video_info : Option (List VideoInfo)
  video_player_state : List (UUID × VideoPlayerState)
  frame_captures : List FrameCapture
  uncommitted_localizations : List (UUID × Localization)
  localizations : List (UUID × Localization)
  selected_localizations : List (UUID × List UUID)
deriving Repr

/-- The state `SharktopodaClient.__init__` builds. -/
def ClientState.init : ClientState :=
  { connected := false
    video_open_state := []
    focused_video_info := none
    all_video_info := none
    video_player_state := []
    frame_captures := []
    uncommitted_localizations := []
    localizations := []
    selected_localizations := [] }

/-- Result of calling a public client method: the envelopes pushed to the
send subject, the state after the call, and the exception the call raised
if any (sends and writes preceding the raise are kept). -/
structure CallResult where
  sent : List Envelope
  state : ClientState
  error : Option PyError := none

namespace SharktopodaClient

/-- `_commit_localizations`:
`self._localizations.update(self._uncommitted_localizations)`. -/
def commit_localizations (s : ClientState) : ClientState :=
  { s with localizations :=
      dictUpdate s.localizations s.uncommitted_localizations }

/-- `_revert_localizations`: `self._uncommitted_localizations.clear()`
then `self._uncommitted_localizations.update(self._localizations)`. -/
def revert_localizations (s : ClientState) : ClientState :=
  { s with uncommitted_localizations := dictUpdate [] s.localizations }

/-- Python `response["status"] == "ok"`: equality with the string; any
non-string JSON value compares unequal. -/
def isOkStatus : Json → Bool
  | Json.str s => s == "ok"
  | _ => false

/-- `open(uuid, url)` (named `openVideo` because `open` is reserved in
Lean). The source sends the command and then executes
`self._opened_video_state[uuid] = VideoOpenState.OPENING`; the attribute
load of `_opened_video_state` raises `AttributeError` because `__init__`
never defines it (it defines `_video_open_state`), so no state field is
modified. -/
def openVideo (s : ClientState) (uuid : UUID) (url : String) : CallResult :=
  { sent := [[("command", Json.str "open"), ("uuid", Json.uuid uuid),
              ("url", Json.str url)]]
    state := s
    error := some PyError.attributeError }

/-- `connect(port)`: clears the connected flag and sends the command. -/
def connect (s : ClientState) (port : Int) : CallResult :=
  { sent := [[("command", Json.str "connect"), ("port", Json.int port)]]
    state := { s with connected := false } }

/-- `close(uuid)`. -/
def close (s : ClientState) (uuid : UUID) : CallResult :=
  { sent := [[("command", Json.str "close"), ("uuid", Json.uuid uuid)]]
    state := s }

/-- `add_localizations(uuid, localizations)`: sends, then optimistically
inserts each localization into the uncommitted map keyed by its own
UUID. -/
def add_localizations (s : ClientState) (uuid : UUID)
    (localizations : List Localization) : CallResult :=
  let uncommitted := localizations.foldl (fun m l => dictSet m l.uuid l) s.uncommitted_localizations
  { sent := [[("command", Json.str "add localizations"),
              ("uuid", Json.uuid uuid),
              ("localizations",
               Json.arr (localizations.map fun l => Json.obj l.encode))]]
    state := { s with uncommitted_localizations := uncommitted } }

/-- `remove_localizations(uuid, localization_uuids)`: sends, then
optimistically pops each UUID from the uncommitted map. -/
def remove_localizations (s : ClientState) (uuid : UUID)
    (localization_uuids : List UUID) : CallResult :=
  let uncommitted := localization_uuids.foldl (fun m u => dictPop m u) s.uncommitted_localizations
  { sent := [[("command", Json.str "remove localizations"),
              ("uuid", Json.uuid uuid),
              ("localizations",
               Json.arr (localization_uuids.map Json.uuid))]]
    state := { s with uncommitted_localizations := uncommitted } }

/-- `update_localizations(uuid, localizations)`: same optimistic write as
`add_localizations`. -/
def update_localizations (s : ClientState) (uuid : UUID)
    (localizations : List Localization) : CallResult :=
  let uncommitted := localizations.foldl (fun m l => dictSet m l.uuid l) s.uncommitted_localizations
  { sent := [[("command", Json.str "update localizations"),
              ("uuid", Json.uuid uuid),
              ("localizations",
               Json.arr (localizations.map fun l => Json.obj l.encode))]]
    state := { s with uncommitted_localizations := uncommitted } }

/-- `clear_localizations(uuid)`: sends, then clears the uncommitted
map. -/
def clear_localizations (s : ClientState) (uuid : UUID) : CallResult :=
  { sent := [[("command", Json.str "clear localizations"),
              ("uuid", Json.uuid uuid)]]
    state := { s with uncommitted_localizations := [] } }

/-- `select_localizations(uuid, localization_uuids)`: sends, then
overwrites the selection for the video unconditionally. -/
def select_localizations (s : ClientState) (uuid : UUID)
    (localization_uuids : List UUID) : CallResult :=
  let selected := dictSet s.selected_localizations uuid localization_uuids
  { sent := [[("command", Json.str "select localizations"),
              ("uuid", Json.uuid uuid),
              ("localizations",
               Json.arr (localization_uuids.map Json.uuid))]]
    state := { s with selected_localizations := selected } }

end SharktopodaClient

/-! ### client.py: response and command handlers -/

namespace SharktopodaClient

/-- `_on_ping_command`: reply with a ping ok response; no state field is
touched. -/
def on_ping_command (s : ClientState) (_command : Envelope) :
    List Envelope × ClientState :=
  ([[("response", Json.str "ping"), ("status", Json.str "ok")]], s)

/-- `_on_connect_response`: on ok set the connected flag; the failure
branch logs the whole response and reads no `cause` field. -/
def on_connect_response (s : ClientState) (response : Envelope) :
    Except PyError ClientState :=
  match dictGet? response "status" with
  | none => Except.error (PyError.keyError "status")
  | some st =>
    if isOkStatus st then Except.ok { s with connected := true }
    else Except.ok s

/-- `_on_open_response`: both branches only log; the failure branch reads
no `cause` field. -/
def on_open_response (s : ClientState) (response : Envelope) :
    Except PyError ClientState :=
  match dictGet? response "status" with
  | none => Except.error (PyError.keyError "status")
  | some st =>
    if isOkStatus st then Except.ok s
    else Except.ok s

/-- `_on_open_done_response`: on ok parse `response["uuid"]` and mark the
video OPEN; on failure read `response["cause"]` (a `KeyError` when
absent) and log. -/
def on_open_done_response (s : ClientState) (response : Envelope) :
    Except PyError ClientState :=
  match dictGet? response "status" with
  | none => Except.error (PyError.keyError "status")
  | some st =>
    if isOkStatus st then
      match dictGet? response "uuid" with
      | none => Except.error (PyError.keyError "uuid")
      | some (Json.uuid u) =>
        Except.ok { s with video_open_state := dictSet s.video_open_state u VideoOpenState.OPEN }
      | some _ => Except.error PyError.valueError
    else
      match dictGet? response "cause" with
      | none => Except.error (PyError.keyError "cause")
      | some _ => Except.ok s

/-- `_on_close_response`: on ok parse `response["uuid"]` and mark the
video CLOSED; on failure read `response["cause"]` and log. -/
def on_close_response (s : ClientState) (response : Envelope) :
    Except PyError ClientState :=
  match dictGet? response "status" with
  | none => Except.error (PyError.keyError "status")
  | some st =>
    if isOkStatus st then
      match dictGet? response "uuid" with
      | none => Except.error (PyError.keyError "uuid")
      | some (Json.uuid u) =>
        Except.ok { s with video_open_state := dictSet s.video_open_state u VideoOpenState.CLOSED }
      | some _ => Except.error PyError.valueError
    else
      match dictGet? response "cause" with
      | none => Except.error (PyError.keyError "cause")
      | some _ => Except.ok s

/-- `_on_show_response`: ok passes; failure reads `response["cause"]` and
logs. -/
def on_show_response (s : ClientState) (response : Envelope) :
    Except PyError ClientState :=
  match dictGet? response "status" with
  | none => Except.error (PyError.keyError "status")
  | some st =>
    if isOkStatus st then Except.ok s
    else
      match dictGet? response "cause" with
      | none => Except.error (PyError.keyError "cause")
      | some _ => Except.ok s

/-- `_on_request_information_response`: the ok branch calls
`self._get_video_info`, an attribute no code defines, so it raises
`AttributeError`; failure reads `response["cause"]` and logs. -/
def on_request_information_response (s : ClientState) (response : Envelope) :
    Except PyError ClientState :=
  match dictGet? response "status" with
  | none => Except.error (PyError.keyError "status")
  | some st =>
    if isOkStatus st then Except.error PyError.attributeError
    else
      match dictGet? response "cause" with
      | none => Except.error (PyError.keyError "cause")
      | some _ => Except.ok s

/-- `_on_request_all_information_response`: the ok branch evaluates
`self._get_video_info` (undefined, `AttributeError`) before touching
`response["videos"]`; failure reads `response["cause"]` and logs. -/
def on_request_all_information_response (s : ClientState) (response : Envelope) :
    Except PyError ClientState :=
  match dictGet? response "status" with
  | none => Except.error (PyError.keyError "status")
  | some st =>
    if isOkStatus st then Except.error PyError.attributeError
    else
      match dictGet? response "cause" with
      | none => Except.error (PyError.keyError "cause")
      | some _ => Except.ok s

/-- `_on_play_response`: ok passes; failure reads `response["cause"]`. -/
def on_play_response (s : ClientState) (response : Envelope) :
    Except PyError ClientState :=
  match dictGet? response "status" with
  | none => Except.error (PyError.keyError "status")
  | some st =>
    if isOkStatus st then Except.ok s
    else
      match dictGet? response "cause" with
      | none => Except.error (PyError.keyError "cause")
      | some _ => Except.ok s

/-- `_on_pause_response`: ok passes; failure reads `response["cause"]`. -/
def on_pause_response (s : ClientState) (response : Envelope) :
    Except PyError ClientState :=
  match dictGet? response "status" with
  | none => Except.error (PyError.keyError "status")
  | some st =>
    if isOkStatus st then Except.ok s
    else
      match dictGet? response "cause" with
      | none => Except.error (PyError.keyError "cause")
      | some _ => Except.ok s

/-- `_on_request_player_state_response`: the ok branch parses
`response["uuid"]` and then calls `self._get_video_player_state`
(undefined, `AttributeError`); failure reads `response["cause"]`. -/
def on_request_player_state_response (s : ClientState) (response : Envelope) :
    Except PyError ClientState :=
  match dictGet? response "status" with
  | none => Except.error (PyError.keyError "status")
  | some st =>
    if isOkStatus st then
      match dictGet? response "uuid" with
      | none => Except.error (PyError.keyError "uuid")
      | some (Json.uuid _) => Except.error PyError.attributeError
      | some _ => Except.error PyError.valueError
    else
      match dictGet? response "cause" with
      | none => Except.error (PyError.keyError "cause")
      | some _ => Except.ok s

/-- `_on_seek_elapsed_time_response`: ok passes; failure reads
`response["cause"]`. -/
def on_seek_elapsed_time_response (s : ClientState) (response : Envelope) :
    Except PyError ClientState :=
  match dictGet? response "status" with
  | none => Except.error (PyError.keyError "status")
  | some st =>
    if isOkStatus st then Except.ok s
    else
      match dictGet? response "cause" with
      | none => Except.error (PyError.keyError "cause")
      | some _ => Except.ok s

/-- `_on_frame_advance_response`: ok passes; failure reads
`response["cause"]`. -/
def on_frame_advance_response (s : ClientState) (response : Envelope) :
    Except PyError ClientState :=
  match dictGet? response "status" with
  | none => Except.error (PyError.keyError "status")
  | some st =>
    if isOkStatus st then Except.ok s
    else
      match dictGet? response "cause" with
      | none => Except.error (PyError.keyError "cause")
      | some _ => Except.ok s

/-- `_on_frame_capture_response`: ok passes; failure reads
`response["cause"]`. -/
def on_frame_capture_response (s : ClientState) (response : Envelope) :
    Except PyError ClientState :=
  match dictGet? response "status" with
  | none => Except.error (PyError.keyError "status")
  | some st =>
    if isOkStatus st then Except.ok s
    else
      match dictGet? response "cause" with
      | none => Except.error (PyError.keyError "cause")
      | some _ => Except.ok s

/-- `_on_frame_capture_done_response`: the ok branch calls
`self._get_frame_capture` (undefined, `AttributeError`); failure reads
`response["cause"]`. -/
def on_frame_capture_done_response (s : ClientState) (response : Envelope) :
    Except PyError ClientState :=
  match dictGet? response "status" with
  | none => Except.error (PyError.keyError "status")
  | some st =>
    if isOkStatus st then Except.error PyError.attributeError
    else
      match dictGet? response "cause" with
      | none => Except.error (PyError.keyError "cause")
      | some _ => Except.ok s

/-- `_on_add_localizations_response`: ok commits the uncommitted map;
failure reads `response["cause"]`, logs, and reverts. -/
def on_add_localizations_response (s : ClientState) (response : Envelope) :
    Except PyError ClientState :=
  match dictGet? response "status" with
  | none => Except.error (PyError.keyError "status")
  | some st =>
    if isOkStatus st then Except.ok (commit_localizations s)
    else
      match dictGet? response "cause" with
      | none => Except.error (PyError.keyError "cause")
      | some _ => Except.ok (revert_localizations s)

/-- `_on_remove_localizations_response`: ok commits; failure reads
`response["cause"]`, logs, and reverts. -/
def on_remove_localizations_response (s : ClientState) (response : Envelope) :
    Except PyError ClientState :=
  match dictGet? response "status" with
  | none => Except.error (PyError.keyError "status")
  | some st =>
    if isOkStatus st then Except.ok (commit_localizations s)
    else
      match dictGet? response "cause" with
      | none => Except.error (PyError.keyError "cause")
      | some _ => Except.ok (revert_localizations s)

/-- `_on_update_localizations_response`: ok commits; failure reads
`response["cause"]`, logs, and reverts. -/
def on_update_localizations_response (s : ClientState) (response : Envelope) :
    Except PyError ClientState :=
  match dictGet? response "status" with
  | none => Except.error (PyError.keyError "status")
  | some st =>
    if isOkStatus st then Except.ok (commit_localizations s)
    else
      match dictGet? response "cause" with
      | none => Except.error (PyError.keyError "cause")
      | some _ => Except.ok (revert_localizations s)

/-- `_on_clear_localizations_response`: ok commits; failure reads
`response["cause"]`, logs, and reverts. -/
def on_clear_localizations_response (s : ClientState) (response : Envelope) :
    Except PyError ClientState :=
  match dictGet? response "status" with
  | none => Except.error (PyError.keyError "status")
  | some st =>
    if isOkStatus st then Except.ok (commit_localizations s)
    else
      match dictGet? response "cause" with
      | none => Except.error (PyError.keyError "cause")
      | some _ => Except.ok (revert_localizations s)

/-- `_on_select_localizations_response`: ok passes; failure reads
`response["cause"]` and only logs. -/
def on_select_localizations_response (s : ClientState) (response : Envelope) :
    Except PyError ClientState :=
  match dictGet? response "status" with
  | none => Except.error (PyError.keyError "status")
  | some st =>
    if isOkStatus st then Except.ok s
    else
      match dictGet? response "cause" with
      | none => Except.error (PyError.keyError "cause")
      | some _ => Except.ok s

/-- `_handle_command`: look up `command["command"]` in the dispatch dict.
The only registered key is `"ping"`. The dict `.get` default is
`lambda: self.logger.warning(...)`, a zero-parameter function, yet the
result is invoked with the command as argument, so every unknown command
name raises `TypeError` before any warning is logged. -/
def handle_command (s : ClientState) (command : Envelope) :
    Except PyError (List Envelope × ClientState) :=
  match dictGet? command "command" with
  | none => Except.error (PyError.keyError "command")
  | some (Json.str "ping") => Except.ok (on_ping_command s command)
  | some _ => Except.error PyError.typeError

/-- `_handle_response`: look up `response["response"]` in the dispatch
dict of nineteen handlers. The `.get` default is again a zero-parameter
lambda invoked with one argument, so every unknown response name raises
`TypeError`. -/
def handle_response (s : ClientState) (response : Envelope) :
    Except PyError ClientState :=
  match dictGet? response "response" with
  | none => Except.error (PyError.keyError "response")
  | some (Json.str "connect") => on_connect_response s response
  | some (Json.str "open") => on_open_response s response
  | some (Json.str "open done") => on_open_done_response s response
  | some (Json.str "close") => on_close_response s response
  | some (Json.str "show") => on_show_response s response
  | some (Json.str "request information") => on_request_information_response s response
  | some (Json.str "request all information") => on_request_all_information_response s response
  | some (Json.str "play") => on_play_response s response
  | some (Json.str "pause") => on_pause_response s response
  | some (Json.str "request player state") => on_request_player_state_response s response
  | some (Json.str "seek elapsed time") => on_seek_elapsed_time_response s response
  | some (Json.str "frame advance") => on_frame_advance_response s response
  | some (Json.str "frame capture") => on_frame_capture_response s response
  | some (Json.str "frame capture done") => on_frame_capture_done_response s response
  | some (Json.str "add localizations") => on_add_localizations_response s response
  | some (Json.str "remove localizations") => on_remove_localizations_response s response
  | some (Json.str "update localizations") => on_update_localizations_response s response
  | some (Json.str "clear localizations") => on_clear_localizations_response s response
  | some (Json.str "select localizations") => on_select_localizations_response s response
  | some _ => Except.error PyError.typeError

/-- `_handle_message`: route by presence of the `command` or `response`
key; an envelope with neither only logs a warning. -/
def handle_message (s : ClientState) (message : Envelope) :
    Except PyError (List Envelope × ClientState) :=
  if (dictGet? message "command").isSome then handle_command s message
  else if (dictGet? message "response").isSome then
    match handle_response s message with
    | Except.ok s2 => Except.ok ([], s2)
    | Except.error e => Except.error e
  else Except.ok ([], s)

end SharktopodaClient

/-! ### localization/Localization.py -/

namespace LocalizationLib

/-- The dataclass in localization/Localization.py; every field is
optional, and `__post_init__` replaces a missing `localizationUuid` with
a fresh `uuid4()`, so constructed instances carry one. -/
structure Localization where
  concept : Option String := none
  elapsedTime : Option Duration := none
  duration : Option Duration := none
  videoReferenceUuid : Option UUID := none
  annotationUuid : Option UUID := none
  localizationUuid : Option UUID := none
  x : Option Int := none
  y : Option Int := none
  width : Option Int := none
  height : Option Int := none
deriving DecidableEq, Repr

/-- The right-hand side of a Python `==` comparison against a
`Localization`: another `Localization`, `None`, or a value of any other
type. -/
inductive PyComparand where
  | localization (l : Localization)
  | pyNone
  | otherType
deriving Repr

/-- `Localization.__eq__`: identity short-circuits to `True` (subsumed
here, since identical objects have equal `localizationUuid`); `None` and
other types compare unequal; otherwise only the `localizationUuid`
fields are compared. -/
def Localization.eq (self : Localization) (o : PyComparand) : Bool :=
  match o with
  | PyComparand.localization b => decide (self.localizationUuid = b.localizationUuid)
  | PyComparand.pyNone => false
  | PyComparand.otherType => false

end LocalizationLib

/-! ### Sequences of optimistic localization mutations -/

/-- One optimistic localization mutation issued through the client (the
video UUID is the first argument of each method). -/
inductive LocMutation where
  | add (uuid : UUID) (localizations : List Localization)
  | remove (uuid : UUID) (localization_uuids : List UUID)
  | update (uuid : UUID) (localizations : List Localization)
  | clear (uuid : UUID)

/-- The state after one optimistic mutation call (ignoring the envelope
it sends). -/
def applyMutation (s : ClientState) : LocMutation → ClientState
  | LocMutation.add u ls => (SharktopodaClient.add_localizations s u ls).state
  | LocMutation.remove u us => (SharktopodaClient.remove_localizations s u us).state
  | LocMutation.update u ls => (SharktopodaClient.update_localizations s u ls).state
  | LocMutation.clear u => (SharktopodaClient.clear_localizations s u).state

/-- The state after a sequence of optimistic mutation calls. -/
def applyMutations (s : ClientState) (ms : List LocMutation) : ClientState :=
  ms.foldl applyMutation s

/-- No optimistic mutation touches the committed map: each of the four
client methods writes only `uncommitted_localizations`. -/
theorem applyMutation_localizations (s : ClientState) (m : LocMutation) :
    (applyMutation s m).localizations = s.localizations := by
  cases m <;>
    simp [applyMutation, SharktopodaClient.add_localizations,
      SharktopodaClient.remove_localizations,
      SharktopodaClient.update_localizations,
      SharktopodaClient.clear_localizations]

theorem applyMutations_localizations (ms : List LocMutation) (s : ClientState) :
    (applyMutations s ms).localizations = s.localizations := by
  induction ms generalizing s with
  | nil => rfl
  | cons m rest ih =>
    calc (applyMutations s (m :: rest)).localizations
        = (applyMutations (applyMutation s m) rest).localizations := rfl
      _ = (applyMutation s m).localizations := ih _
      _ = s.localizations := applyMutation_localizations s m

/-! ### Supporting lemmas and sample values -/

theorem dictGet?_dictUpdate_nil {K V : Type} [DecidableEq K]
    (d : List (K × V)) (hnd : DictNoDup d) (k : K) :
    dictGet? (dictUpdate ([] : List (K × V)) d) k = dictGet? d k := by
  rw [dictGet?_dictUpdate d [] hnd k]
  cases dictGet? d k <;> simp [dictGet?, optionFirst]

/-- Sample video UUID for concrete instantiations. -/
def uuidV : UUID := ⟨1⟩

/-- Sample localization UUID. -/
def uuidL1 : UUID := ⟨2⟩

/-- Second sample localization UUID. -/
def uuidL2 : UUID := ⟨3⟩

/-- Sample localization without a color. -/
def locL1 : Localization :=
  { uuid := uuidL1, concept := "fish", elapsed_time_millis := 10,
    x := 1, y := 2, width := 3, height := 4 }

/-- Sample localization with a color. -/
def locL2 : Localization :=
  { uuid := uuidL2, concept := "crab", elapsed_time_millis := 20,
    x := 5, y := 6, width := 7, height := 8,
    duration_millis := 2, color := some "red" }

/-- A client state whose working set holds one committed (and mirrored
uncommitted) localization. -/
def stateCommitted : ClientState :=
  { ClientState.init with
      localizations := [(uuidL1, locL1)]
      uncommitted_localizations := [(uuidL1, locL1)] }

/-- A failure response envelope carrying a cause. -/
def failResponse (name : String) : Envelope :=
  [("response", Json.str name), ("status", Json.str "failed"),
   ("cause", Json.str "duplicate")]

/-- A success response envelope. -/
def okResponse (name : String) : Envelope :=
  [("response", Json.str name), ("status", Json.str "ok")]

/-! ### Claims -/

/-- C1: for every sequence of add/remove/update/clear localization
mutations applied optimistically to the uncommitted map, handling a
response whose status is not ok (and which carries a cause, as failure
responses do) through any of the four localization failure handlers
reverts: the committed map equals the committed map before the mutations,
and the uncommitted map is reset to exactly equal the committed map. -/
theorem C1_optimistic_revert_inverse (s : ClientState) (ms : List LocMutation)
    (r : Envelope) (st : Json)
    (hst : dictGet? r "status" = some st)
    (hok : SharktopodaClient.isOkStatus st = false)
    (hcause : (dictGet? r "cause").isSome)
    (hnd : DictNoDup s.localizations) :
    SharktopodaClient.on_add_localizations_response (applyMutations s ms) r =
      Except.ok (SharktopodaClient.revert_localizations (applyMutations s ms)) ∧
    SharktopodaClient.on_remove_localizations_response (applyMutations s ms) r =
      Except.ok (SharktopodaClient.revert_localizations (applyMutations s ms)) ∧
    SharktopodaClient.on_update_localizations_response (applyMutations s ms) r =
      Except.ok (SharktopodaClient.revert_localizations (applyMutations s ms)) ∧
    SharktopodaClient.on_clear_localizations_response (applyMutations s ms) r =
      Except.ok (SharktopodaClient.revert_localizations (applyMutations s ms)) ∧
    (SharktopodaClient.revert_localizations (applyMutations s ms)).localizations =
      s.localizations ∧
    ∀ k, dictGet? (SharktopodaClient.revert_localizations
        (applyMutations s ms)).uncommitted_localizations k =
      dictGet? s.localizations k := by
  have hL : (applyMutations s ms).localizations = s.localizations :=
    applyMutations_localizations ms s
  obtain ⟨c, hc⟩ := Option.isSome_iff_exists.mp hcause
  refine ⟨?_, ?_, ?_, ?_, ?_, ?_⟩
  · simp [SharktopodaClient.on_add_localizations_response, hst, hok, hc]
  · simp [SharktopodaClient.on_remove_localizations_response, hst, hok, hc]
  · simp [SharktopodaClient.on_update_localizations_response, hst, hok, hc]
  · simp [SharktopodaClient.on_clear_localizations_response, hst, hok, hc]
  · simp [SharktopodaClient.revert_localizations, hL]
  · intro k
    show dictGet? (dictUpdate [] (applyMutations s ms).localizations) k =
      dictGet? s.localizations k
    rw [hL]
    exact dictGet?_dictUpdate_nil s.localizations hnd k

/-- C1 witness: the theorem instantiated on a one-entry committed set, an
optimistic add of a second localization, and a concrete failure
response. -/
theorem C1_optimistic_revert_inverse_witness :
    SharktopodaClient.on_add_localizations_response
        (applyMutations stateCommitted [LocMutation.add uuidV [locL2]])
        (failResponse "add localizations") =
      Except.ok (SharktopodaClient.revert_localizations
        (applyMutations stateCommitted [LocMutation.add uuidV [locL2]])) ∧
    SharktopodaClient.on_remove_localizations_response
        (applyMutations stateCommitted [LocMutation.add uuidV [locL2]])
        (failResponse "add localizations") =
      Except.ok (SharktopodaClient.revert_localizations
        (applyMutations stateCommitted [LocMutation.add uuidV [locL2]])) ∧
    SharktopodaClient.on_update_localizations_response
        (applyMutations stateCommitted [LocMutation.add uuidV [locL2]])
        (failResponse "add localizations") =
      Except.ok (SharktopodaClient.revert_localizations
        (applyMutations stateCommitted [LocMutation.add uuidV [locL2]])) ∧
    SharktopodaClient.on_clear_localizations_response
        (applyMutations stateCommitted [LocMutation.add uuidV [locL2]])
        (failResponse "add localizations") =
      Except.ok (SharktopodaClient.revert_localizations
        (applyMutations stateCommitted [LocMutation.add uuidV [locL2]])) ∧
    (SharktopodaClient.revert_localizations
        (applyMutations stateCommitted [LocMutation.add uuidV [locL2]])).localizations =
      stateCommitted.localizations ∧
    ∀ k, dictGet? (SharktopodaClient.revert_localizations
        (applyMutations stateCommitted [LocMutation.add uuidV [locL2]])).uncommitted_localizations k =
      dictGet? stateCommitted.localizations k :=
  C1_optimistic_revert_inverse stateCommitted [LocMutation.add uuidV [locL2]]
    (failResponse "add localizations") (Json.str "failed") rfl rfl rfl (by decide)

/-- C2 counterexample: remove a committed localization optimistically
(the uncommitted map no longer holds its key), then handle a success
response; `_commit_localizations` only runs `dict.update`, so the key is
still present in the committed map with its old value, while the claim
says keys removed from the uncommitted map are absent from the committed
map afterwards. -/
theorem C2_commit_counterexample :
    dictGet? ((SharktopodaClient.remove_localizations stateCommitted uuidV
        [uuidL1]).state).uncommitted_localizations uuidL1 = none ∧
    SharktopodaClient.on_remove_localizations_response
        ((SharktopodaClient.remove_localizations stateCommitted uuidV [uuidL1]).state)
        (okResponse "remove localizations") =
      Except.ok (SharktopodaClient.commit_localizations
        ((SharktopodaClient.remove_localizations stateCommitted uuidV [uuidL1]).state)) ∧
    dictGet? (SharktopodaClient.commit_localizations
        ((SharktopodaClient.remove_localizations stateCommitted uuidV
          [uuidL1]).state)).localizations uuidL1 = some locL1 :=
  ⟨rfl, rfl, rfl⟩

/-- C2 (amended): handling a success response for any of the four
localization mutations commits by merging the uncommitted map into the
committed map: every key present in the uncommitted map takes its
uncommitted value, and every other key keeps its previous committed
entry — in particular keys removed or cleared from the uncommitted map
are NOT deleted from the committed map. -/
theorem C2_commit_is_merge (s : ClientState) (r : Envelope) (st : Json)
    (hst : dictGet? r "status" = some st)
    (hok : SharktopodaClient.isOkStatus st = true)
    (hnd : DictNoDup s.uncommitted_localizations) :
    SharktopodaClient.on_add_localizations_response s r =
      Except.ok (SharktopodaClient.commit_localizations s) ∧
    SharktopodaClient.on_remove_localizations_response s r =
      Except.ok (SharktopodaClient.commit_localizations s) ∧
    SharktopodaClient.on_update_localizations_response s r =
      Except.ok (SharktopodaClient.commit_localizations s) ∧
    SharktopodaClient.on_clear_localizations_response s r =
      Except.ok (SharktopodaClient.commit_localizations s) ∧
    ∀ k, dictGet? (SharktopodaClient.commit_localizations s).localizations k =
      optionFirst (dictGet? s.uncommitted_localizations k)
        (dictGet? s.localizations k) := by
  refine ⟨?_, ?_, ?_, ?_, ?_⟩
  · simp [SharktopodaClient.on_add_localizations_response, hst, hok]
  · simp [SharktopodaClient.on_remove_localizations_response, hst, hok]
  · simp [SharktopodaClient.on_update_localizations_response, hst, hok]
  · simp [SharktopodaClient.on_clear_localizations_response, hst, hok]
  · intro k
    show dictGet? (dictUpdate s.localizations s.uncommitted_localizations) k = _
    exact dictGet?_dictUpdate s.uncommitted_localizations s.localizations hnd k

/-- C2 witness: the amended theorem instantiated on the one-entry state
after an optimistic remove and a concrete success response. -/
theorem C2_commit_is_merge_witness :
    SharktopodaClient.on_add_localizations_response
        ((SharktopodaClient.remove_localizations stateCommitted uuidV [uuidL1]).state)
        (okResponse "remove localizations") =
      Except.ok (SharktopodaClient.commit_localizations
        ((SharktopodaClient.remove_localizations stateCommitted uuidV [uuidL1]).state)) ∧
    SharktopodaClient.on_remove_localizations_response
        ((SharktopodaClient.remove_localizations stateCommitted uuidV [uuidL1]).state)
        (okResponse "remove localizations") =
      Except.ok (SharktopodaClient.commit_localizations
        ((SharktopodaClient.remove_localizations stateCommitted uuidV [uuidL1]).state)) ∧
    SharktopodaClient.on_update_localizations_response
        ((SharktopodaClient.remove_localizations stateCommitted uuidV [uuidL1]).state)
        (okResponse "remove localizations") =
      Except.ok (SharktopodaClient.commit_localizations
        ((SharktopodaClient.remove_localizations stateCommitted uuidV [uuidL1]).state)) ∧
    SharktopodaClient.on_clear_localizations_response
        ((SharktopodaClient.remove_localizations stateCommitted uuidV [uuidL1]).state)
        (okResponse "remove localizations") =
      Except.ok (SharktopodaClient.commit_localizations
        ((SharktopodaClient.remove_localizations stateCommitted uuidV [uuidL1]).state)) ∧
    ∀ k, dictGet? (SharktopodaClient.commit_localizations
        ((SharktopodaClient.remove_localizations stateCommitted uuidV
          [uuidL1]).state)).localizations k =
      optionFirst
        (dictGet? ((SharktopodaClient.remove_localizations stateCommitted uuidV
          [uuidL1]).state).uncommitted_localizations k)
        (dictGet? ((SharktopodaClient.remove_localizations stateCommitted uuidV
          [uuidL1]).state).localizations k) :=
  C2_commit_is_merge
    ((SharktopodaClient.remove_localizations stateCommitted uuidV [uuidL1]).state)
    (okResponse "remove localizations") (Json.str "ok") rfl rfl (by decide)

/-- C3: evaluating the claimed scenario on the code. `open(U, url)` does
send the open command, but then raises `AttributeError` (it writes
through the undefined attribute `_opened_video_state`; `__init__` defines
`_video_open_state`), so the video open state is never set to OPENING —
against the claim, which says the call sets OPENING without raising.
Handling the ok open-done envelope afterwards does set the state to
OPEN. -/
theorem C3_open_scenario_on_code :
    (SharktopodaClient.openVideo ClientState.init uuidV "file:///a.mp4").sent =
      [[("command", Json.str "open"), ("uuid", Json.uuid uuidV),
        ("url", Json.str "file:///a.mp4")]] ∧
    (SharktopodaClient.openVideo ClientState.init uuidV "file:///a.mp4").error =
      some PyError.attributeError ∧
    (SharktopodaClient.openVideo ClientState.init uuidV "file:///a.mp4").state =
      ClientState.init ∧
    dictGet? (SharktopodaClient.openVideo ClientState.init uuidV
      "file:///a.mp4").state.video_open_state uuidV = none ∧
    SharktopodaClient.on_open_done_response
        (SharktopodaClient.openVideo ClientState.init uuidV "file:///a.mp4").state
        [("response", Json.str "open done"), ("status", Json.str "ok"),
         ("uuid", Json.uuid uuidV)] =
      Except.ok { ClientState.init with
        video_open_state := [(uuidV, VideoOpenState.OPEN)] } :=
  ⟨rfl, rfl, rfl, rfl, rfl⟩

/-- C4: evaluating the receive loops on a malformed datagram followed by
a well-formed one. Both `RxUDPServer` receive loops set `_ok = False`
inside the `except` arm, so the loop terminates and the subsequent
well-formed datagram is never delivered — against the claim that a
single malformed datagram never terminates the receive loop. -/
theorem C4_receive_loop_stops_on_malformed :
    udpReceiveDelivered
        [DatagramEvent.malformed "10.0.0.1",
         DatagramEvent.wellFormed "10.0.0.1" (okResponse "ping")] = [] ∧
    clientReceiveDelivered "10.0.0.1"
        [DatagramEvent.malformed "10.0.0.1",
         DatagramEvent.wellFormed "10.0.0.1" (okResponse "ping")] = [] ∧
    udpReceiveDelivered
        [DatagramEvent.wellFormed "10.0.0.1" (okResponse "ping")] =
      [okResponse "ping"] :=
  ⟨rfl, rfl, rfl⟩

/-- C5: for every timeout value, `UDPServer.receive` on a transport where
no datagram arrives surfaces `TypeError`, not the distinct Timeout
condition: the `except timeout:` clause names the shadowing integer
parameter, and matching a raised `socket.timeout` against a
non-exception value raises `TypeError`, so the intended
`raise TimeoutError(...)` never executes. -/
theorem C5_receive_timeout_raises_typeerror (t : Nat) :
    UDPServer.receive t SocketRecv.timedOut = Except.error PyError.typeError ∧
    PyError.typeError ≠ PyError.timeoutError :=
  ⟨rfl, by decide⟩

/-- C6: evaluating the dispatch tables on unknown names. The `.get`
default in both `_handle_command` and `_handle_response` is a
zero-parameter lambda that is then invoked with the envelope as argument,
so an unknown command or response name raises `TypeError` before any
warning is logged — against the claim that the client logs a warning and
completes without raising. The known name `"ping"` still dispatches and
replies. -/
theorem C6_unknown_name_raises_typeerror :
    SharktopodaClient.handle_command ClientState.init
        [("command", Json.str "frobnicate")] =
      Except.error PyError.typeError ∧
    SharktopodaClient.handle_response ClientState.init
        [("response", Json.str "frobnicate")] =
      Except.error PyError.typeError ∧
    SharktopodaClient.handle_command ClientState.init
        [("command", Json.str "ping")] =
      Except.ok ([[("response", Json.str "ping"), ("status", Json.str "ok")]],
        ClientState.init) :=
  ⟨rfl, rfl, rfl⟩

/-- C7: decode is a left inverse of encode for the four domain records of
client.py, for every field combination, the optional `color` field of
`Localization` absent or present. -/
theorem C7_codec_roundtrip :
    (∀ l : Localization, Localization.decode (Localization.encode l) = some l) ∧
    (∀ v : VideoInfo, VideoInfo.decode (VideoInfo.encode v) = some v) ∧
    (∀ p : VideoPlayerState,
      VideoPlayerState.decode (VideoPlayerState.encode p) = some p) ∧
    (∀ f : FrameCapture, FrameCapture.decode (FrameCapture.encode f) = some f) := by
  refine ⟨?_, ?_, ?_, ?_⟩
  · intro l
    obtain ⟨u, c, e, x, y, w, h, d, col⟩ := l
    cases col <;> rfl
  · intro v
    obtain ⟨u, url, dm, fr, ik⟩ := v
    rfl
  · intro p
    obtain ⟨st, r⟩ := p
    cases st <;> rfl
  · intro f
    obtain ⟨u, e, iru, loc⟩ := f
    rfl

/-- C8: evaluating the millisecond round trip at 1000. `toMillis` reads
the `microseconds` attribute, which is only the sub-second component of
the timedelta, so `Duration.ofMillis(1000).toMillis()` is 0, not 1000,
and the converter serializes it as "0" — against the claim that the
round trip holds for every non-negative integer. For values below 1000
the round trip does hold. -/
theorem C8_duration_roundtrip_fails_at_1000 :
    (Duration.ofMillis 1000).toMillis = 0 ∧
    DurationConverter.serialize (Duration.ofMillis 1000) = "0" ∧
    DurationConverter.deserialize "1000" = some (Duration.ofMillis 1000) ∧
    (Duration.ofMillis 999).toMillis = 999 := by
  refine ⟨by decide, ?_, by decide, by decide⟩
  show toString (Duration.toMillis (Duration.ofMillis 1000)) = "0"
  have h : (Duration.ofMillis 1000).toMillis = 0 := by decide
  rw [h]
  rfl

/-- C9: two localizations of localization/Localization.py compare equal
under `__eq__` exactly when their `localizationUuid` fields are equal,
regardless of every other field, and comparison with `None` or a value
of another type is never equal. -/
theorem C9_eq_iff_localization_uuid (a b : LocalizationLib.Localization) :
    (LocalizationLib.Localization.eq a (LocalizationLib.PyComparand.localization b)
        = true ↔ a.localizationUuid = b.localizationUuid) ∧
    LocalizationLib.Localization.eq a LocalizationLib.PyComparand.pyNone = false ∧
    LocalizationLib.Localization.eq a LocalizationLib.PyComparand.otherType = false := by
  refine ⟨?_, rfl, rfl⟩
  simp [LocalizationLib.Localization.eq]

/-- C10 counterexample: the failure branch of `_on_connect_response` logs
the whole response and never reads `cause`, so a failure response without
a `cause` key is handled without raising — against the claim that every
failure branch of the response handlers reads `cause` unconditionally.
The same holds for `_on_open_response`. -/
theorem C10_counterexample :
    SharktopodaClient.on_connect_response ClientState.init
        [("response", Json.str "connect"), ("status", Json.str "failed")] =
      Except.ok ClientState.init ∧
    SharktopodaClient.on_open_response ClientState.init
        [("response", Json.str "open"), ("status", Json.str "failed")] =
      Except.ok ClientState.init :=
  ⟨rfl, rfl⟩

/-- C10 (amended): every failure branch of the response handlers except
those of `connect` and `open` reads `response["cause"]` unconditionally:
on a well-formed failure response lacking a `cause` key, the open-done,
close, show, request-information, request-all-information, play, pause,
request-player-state, seek-elapsed-time, frame-advance, frame-capture,
frame-capture-done, add/remove/update/clear/select-localizations
handlers raise `KeyError` instead of logging and continuing, while the
connect and open failure branches log without reading `cause`. -/
theorem C10_failure_branches_read_cause (s : ClientState) (r : Envelope)
    (st : Json)
    (hst : dictGet? r "status" = some st)
    (hok : SharktopodaClient.isOkStatus st = false)
    (hcause : dictGet? r "cause" = none) :
    SharktopodaClient.on_open_done_response s r =
      Except.error (PyError.keyError "cause") ∧
    SharktopodaClient.on_close_response s r =
      Except.error (PyError.keyError "cause") ∧
    SharktopodaClient.on_show_response s r =
      Except.error (PyError.keyError "cause") ∧
    SharktopodaClient.on_request_information_response s r =
      Except.error (PyError.keyError "cause") ∧
    SharktopodaClient.on_request_all_information_response s r =
      Except.error (PyError.keyError "cause") ∧
    SharktopodaClient.on_play_response s r =
      Except.error (PyError.keyError "cause") ∧
    SharktopodaClient.on_pause_response s r =
      Except.error (PyError.keyError "cause") ∧
    SharktopodaClient.on_request_player_state_response s r =
      Except.error (PyError.keyError "cause") ∧
    SharktopodaClient.on_seek_elapsed_time_response s r =
      Except.error (PyError.keyError "cause") ∧
    SharktopodaClient.on_frame_advance_response s r =
      Except.error (PyError.keyError "cause") ∧
    SharktopodaClient.on_frame_capture_response s r =
      Except.error (PyError.keyError "cause") ∧
    SharktopodaClient.on_frame_capture_done_response s r =
      Except.error (PyError.keyError "cause") ∧
    SharktopodaClient.on_add_localizations_response s r =
      Except.error (PyError.keyError "cause") ∧
    SharktopodaClient.on_remove_localizations_response s r =
      Except.error (PyError.keyError "cause") ∧
    SharktopodaClient.on_update_localizations_response s r =
      Except.error (PyError.keyError "cause") ∧
    SharktopodaClient.on_clear_localizations_response s r =
      Except.error (PyError.keyError "cause") ∧
    SharktopodaClient.on_select_localizations_response s r =
      Except.error (PyError.keyError "cause") ∧
    SharktopodaClient.on_connect_response s r = Except.ok s ∧
    SharktopodaClient.on_open_response s r = Except.ok s := by
  refine ⟨?_, ?_, ?_, ?_, ?_, ?_, ?_, ?_, ?_, ?_, ?_, ?_, ?_, ?_, ?_, ?_, ?_,
    ?_, ?_⟩
  · simp [SharktopodaClient.on_open_done_response, hst, hok, hcause]
  · simp [SharktopodaClient.on_close_response, hst, hok, hcause]
  · simp [SharktopodaClient.on_show_response, hst, hok, hcause]
  · simp [SharktopodaClient.on_request_information_response, hst, hok, hcause]
  · simp [SharktopodaClient.on_request_all_information_response, hst, hok, hcause]
  · simp [SharktopodaClient.on_play_response, hst, hok, hcause]
  · simp [SharktopodaClient.on_pause_response, hst, hok, hcause]
  · simp [SharktopodaClient.on_request_player_state_response, hst, hok, hcause]
  · simp [SharktopodaClient.on_seek_elapsed_time_response, hst, hok, hcause]
  · simp [SharktopodaClient.on_frame_advance_response, hst, hok, hcause]
  · simp [SharktopodaClient.on_frame_capture_response, hst, hok, hcause]
  · simp [SharktopodaClient.on_frame_capture_done_response, hst, hok, hcause]
  · simp [SharktopodaClient.on_add_localizations_response, hst, hok, hcause]
  · simp [SharktopodaClient.on_remove_localizations_response, hst, hok, hcause]
  · simp [SharktopodaClient.on_update_localizations_response, hst, hok, hcause]
  · simp [SharktopodaClient.on_clear_localizations_response, hst, hok, hcause]
  · simp [SharktopodaClient.on_select_localizations_response, hst, hok, hcause]
  · simp [SharktopodaClient.on_connect_response, hst, hok]
  · simp [SharktopodaClient.on_open_response, hst, hok]

/-- C10 witness: the amended theorem instantiated on a concrete
causeless failure response. -/
theorem C10_failure_branches_read_cause_witness :
    SharktopodaClient.on_open_done_response ClientState.init
        [("status", Json.str "failed")] =
      Except.error (PyError.keyError "cause") ∧
    SharktopodaClient.on_close_response ClientState.init
        [("status", Json.str "failed")] =
      Except.error (PyError.keyError "cause") ∧
    SharktopodaClient.on_show_response ClientState.init
        [("status", Json.str "failed")] =
      Except.error (PyError.keyError "cause") ∧
    SharktopodaClient.on_request_information_response ClientState.init
        [("status", Json.str "failed")] =
      Except.error (PyError.keyError "cause") ∧
    SharktopodaClient.on_request_all_information_response ClientState.init
        [("status", Json.str "failed")] =
      Except.error (PyError.keyError "cause") ∧
    SharktopodaClient.on_play_response ClientState.init
        [("status", Json.str "failed")] =
      Except.error (PyError.keyError "cause") ∧
    SharktopodaClient.on_pause_response ClientState.init
        [("status", Json.str "failed")] =
      Except.error (PyError.keyError "cause") ∧
    SharktopodaClient.on_request_player_state_response ClientState.init
        [("status", Json.str "failed")] =
      Except.error (PyError.keyError "cause") ∧
    SharktopodaClient.on_seek_elapsed_time_response ClientState.init
        [("status", Json.str "failed")] =
      Except.error (PyError.keyError "cause") ∧
    SharktopodaClient.on_frame_advance_response ClientState.init
        [("status", Json.str "failed")] =
      Except.error (PyError.keyError "cause") ∧
    SharktopodaClient.on_frame_capture_response ClientState.init
        [("status", Json.str "failed")] =
      Except.error (PyError.keyError "cause") ∧
    SharktopodaClient.on_frame_capture_done_response ClientState.init
        [("status", Json.str "failed")] =
      Except.error (PyError.keyError "cause") ∧
    SharktopodaClient.on_add_localizations_response ClientState.init
        [("status", Json.str "failed")] =
      Except.error (PyError.keyError "cause") ∧
    SharktopodaClient.on_remove_localizations_response ClientState.init
        [("status", Json.str "failed")] =
      Except.error (PyError.keyError "cause") ∧
    SharktopodaClient.on_update_localizations_response ClientState.init
        [("status", Json.str "failed")] =
      Except.error (PyError.keyError "cause") ∧
    SharktopodaClient.on_clear_localizations_response ClientState.init
        [("status", Json.str "failed")] =
      Except.error (PyError.keyError "cause") ∧
    SharktopodaClient.on_select_localizations_response ClientState.init
        [("status", Json.str "failed")] =
      Except.error (PyError.keyError "cause") ∧
    SharktopodaClient.on_connect_response ClientState.init
        [("status", Json.str "failed")] = Except.ok ClientState.init ∧
    SharktopodaClient.on_open_response ClientState.init
        [("status", Json.str "failed")] = Except.ok ClientState.init :=
  C10_failure_branches_read_cause ClientState.init
    [("status", Json.str "failed")] (Json.str "failed") rfl rfl rfl

end Shark
